import Mathlib

/-!
Shallow embedding of the data-quality gate of the `padre-values` repository:
the statistical value validator and reference-range reconciler
(`src/value_validator.py`), the ingestion step of `save_report`
(`src/supabase_updater.py`), and the metric-name normalizer pipeline
(`src/sheets_updater.py`).  Python floats are modelled as rationals (ℚ),
nullable values as `Option`, and a value on which Python `float()` raises
as an explicit constructor.  Warning/reason strings are modelled as
inductive values carrying exactly the data the source interpolates into
the corresponding f-string.
-/

namespace PadreValues

/-- A Python scalar that may appear in a value slot: a number, or a
non-numeric value on which `float()` raises.  A Python `None` is modelled
as `Option.none` around this type. -/
inductive PVal where
  | num (q : ℚ)
  | nonNum
deriving DecidableEq, Repr

/-- `calculate_median` / `statistics.median`: sort ascending; odd length
takes the middle element, even length averages the two middle elements.
Empty input returns 0 (the `calculate_median` guard). -/
def median (l : List ℚ) : ℚ :=
  let s := l.insertionSort (· ≤ ·)
  let n := s.length
  if n % 2 = 1 then s.getD (n / 2) 0
  else (s.getD (n / 2 - 1) 0 + s.getD (n / 2) 0) / 2

/-- Drop the `None` entries of a nullable list (the
`[v for v in values if v is not None]` filters). -/
def filterNone (l : List (Option ℚ)) : List ℚ := l.filterMap id

/-- The `reason` strings of `validate_metric_value`, as structured data.
Each constructor carries exactly what the source interpolates. -/
inductive VReason where
  | valueIsNone
  | notNumeric
  | firstValue
  | farFromZeroMedian (v : ℚ)
  | acceptableZeroMedian
  | suspicious (name : String) (v deviationPct med maxDev : ℚ)
  | withinRange
deriving DecidableEq, Repr

/-- Result of `validate_metric_value`. -/
structure ValidationResult where
  valid : Bool
  reason : VReason
deriving DecidableEq, Repr

/-- `validate_metric_value(name, value, existing_values, max_deviation_pct)`
from `src/value_validator.py`: None and non-numeric values are invalid;
with no non-null history the value is accepted as a first value; with
median 0 the absolute bound 1000 applies; otherwise the value is valid
iff the percentage deviation from the median does not exceed
`max_deviation_pct` (whose Python default is 500). -/
def validate_metric_value (name : String) (value : Option PVal)
    (existing_values : List (Option ℚ)) (max_deviation_pct : ℚ) :
    ValidationResult :=
  match value with
  | Option.none => ⟨false, VReason.valueIsNone⟩
  | some PVal.nonNum => ⟨false, VReason.notNumeric⟩
  | some (PVal.num v) =>
    let filtered := filterNone existing_values
    if filtered = [] then ⟨true, VReason.firstValue⟩
    else
      let med := median filtered
      if med = 0 then
        if |v| > 1000 then ⟨false, VReason.farFromZeroMedian v⟩
        else ⟨true, VReason.acceptableZeroMedian⟩
      else
        let deviation_pct := |v - med| / |med| * 100
        if deviation_pct > max_deviation_pct then
          ⟨false, VReason.suspicious name v deviation_pct med max_deviation_pct⟩
        else ⟨true, VReason.withinRange⟩

/-- The `warning` strings of `validate_reference_change`, as structured
data carrying exactly what the source interpolates. -/
inductive RWarning where
  | invalidRefs
  | suspiciousZero (refType : String) (newRef : ℚ)
  | changed (refType : String) (existing newRef diffPct : ℚ)
  | rejected (refType : String) (existing newRef diffPct threshold : ℚ)
deriving DecidableEq, Repr

/-- Result of `validate_reference_change`. -/
structure ReferenceUpdateResult where
  should_update : Bool
  warning : Option RWarning
deriving DecidableEq, Repr

/-- `validate_reference_change(existing_ref, new_ref, ref_type)` from
`src/value_validator.py`: missing existing accepts; missing new rejects
silently; non-numeric rejects with a warning; zero existing is
special-cased; otherwise the 15 / 50 percent bands apply to
`abs(new - existing) / abs(existing) * 100`. -/
def validate_reference_change (existing_ref new_ref : Option PVal)
    (ref_type : String) : ReferenceUpdateResult :=
  match existing_ref with
  | Option.none => ⟨true, Option.none⟩
  | some e =>
    match new_ref with
    | Option.none => ⟨false, Option.none⟩
    | some n =>
      match e, n with
      | PVal.num eq, PVal.num nq =>
        if eq = 0 then
          if nq = 0 then ⟨false, Option.none⟩
          else ⟨false, some (RWarning.suspiciousZero ref_type nq)⟩
        else
          let diff_pct := |nq - eq| / |eq| * 100
          if diff_pct ≤ 15 then ⟨true, Option.none⟩
          else if diff_pct ≤ 50 then
            ⟨true, some (RWarning.changed ref_type eq nq diff_pct)⟩
          else
            ⟨false, some (RWarning.rejected ref_type eq nq diff_pct 50)⟩
      | _, _ => ⟨false, some RWarning.invalidRefs⟩

/-- Outcome class of a reconciler result: silent accept,
accept-with-warning, or reject. -/
inductive OutcomeClass where
  | silent
  | warned
  | rejected
deriving DecidableEq, Repr

/-- Classify a `ReferenceUpdateResult` into its outcome class. -/
def outcomeClass (r : ReferenceUpdateResult) : OutcomeClass :=
  match r.should_update, r.warning with
  | true, Option.none => OutcomeClass.silent
  | true, some _ => OutcomeClass.warned
  | false, _ => OutcomeClass.rejected

/-- The per-metric payload of the extraction input
(`tests_dict[name]` in `save_report`): every field nullable. -/
structure TestData where
  value : Option PVal
  unit : Option String
  ref_low : Option PVal
  ref_high : Option PVal
  flag : Option String
deriving DecidableEq, Repr

/-- An observation row queued in `metrics_to_upsert`. -/
structure MetricRow where
  report_id : String
  name : String
  value : ℚ
  unit : Option String
  ref_low : Option PVal
  ref_high : Option PVal
  flag : Option String
deriving DecidableEq, Repr

/-- A metric-definition row queued in `definitions_to_upsert`.  The
`unit` field models the always-present `"unit"` dict key (whose value
may be Python `None`); `ref_low` / `ref_high` model the *presence* of
those dict keys: `Option.none` means the key was not included. -/
structure DefinitionRow where
  profile_id : String
  name : String
  unit : Option String
  ref_low : Option PVal
  ref_high : Option PVal
deriving DecidableEq, Repr

/-- The warning strings `save_report` appends to `stats["warnings"]`,
as structured data. -/
inductive SaveWarning where
  | nonNumericValue (name : String)
  | invalidValue (name : String) (reason : VReason)
  | refWarning (name : String) (w : RWarning)
deriving DecidableEq, Repr

/-- The accumulating state of `save_report`'s metric loop: the two upsert
queues plus the `skipped` count and warning list of `stats`. -/
structure SaveState where
  metrics : List MetricRow
  definitions : List DefinitionRow
  skipped : Nat
  warnings : List SaveWarning
deriving DecidableEq, Repr

/-- One iteration of the `for name, data in tests_dict.items()` loop of
`save_report` (`src/supabase_updater.py`).  `getValues` models
`get_existing_values_for_metric` and `getRef` models
`get_existing_reference` (storage-collaborator lookups, passed in as
parameters).  A `None` value is skipped by a bare `continue`; a
non-numeric value increments `skipped` and appends a warning; a value
rejected by the validator (when `validate` is on) does the same;
otherwise the observation row is queued verbatim and a gated definition
update is built. -/
def processMetric (profile_id report_id : String)
    (getValues : String → List (Option ℚ))
    (getRef : String → Option PVal × Option PVal)
    (validate : Bool) (st : SaveState) (entry : String × TestData) :
    SaveState :=
  let name := entry.1
  let data := entry.2
  let accept : ℚ → SaveState := fun v =>
    let row : MetricRow :=
      ⟨report_id, name, v, data.unit, data.ref_low, data.ref_high, data.flag⟩
    let ex := getRef name
    let rLow := validate_reference_change ex.1 data.ref_low "ref_low"
    let rHigh := validate_reference_change ex.2 data.ref_high "ref_high"
    let ws1 := match rLow.warning with
      | some w => [SaveWarning.refWarning name w]
      | Option.none => []
    let ws2 := match rHigh.warning with
      | some w => [SaveWarning.refWarning name w]
      | Option.none => []
    let defn : DefinitionRow :=
      ⟨profile_id, name, data.unit,
        (if rLow.should_update && data.ref_low.isSome then data.ref_low
         else Option.none),
        (if rHigh.should_update && data.ref_high.isSome then data.ref_high
         else Option.none)⟩
    { st with
        metrics := st.metrics ++ [row],
        definitions := st.definitions ++ [defn],
        warnings := st.warnings ++ ws1 ++ ws2 }
  match data.value with
  | Option.none => st
  | some PVal.nonNum =>
    { st with
        skipped := st.skipped + 1,
        warnings := st.warnings ++ [SaveWarning.nonNumericValue name] }
  | some (PVal.num v) =>
    if validate then
      let vres := validate_metric_value name (some (PVal.num v))
        (getValues name) 500
      if vres.valid then accept v
      else
        { st with
            skipped := st.skipped + 1,
            warnings := st.warnings ++ [SaveWarning.invalidValue name vres.reason] }
    else accept v

/-- The metric loop of `save_report`: fold `processMetric` over the
extraction's tests (a Python dict, modelled as an association list in
insertion order), starting from empty queues and zeroed stats. -/
def save_report (profile_id report_id : String)
    (getValues : String → List (Option ℚ))
    (getRef : String → Option PVal × Option PVal)
    (validate : Bool) (tests : List (String × TestData)) : SaveState :=
  tests.foldl (processMetric profile_id report_id getValues getRef validate)
    ⟨[], [], 0, []⟩

/-- `stats["inserted"]` as `save_report` returns it: the length of the
queued metrics list. -/
def insertedCount (st : SaveState) : Nat := st.metrics.length

/-- Python-dict insertion: replace the value in place when the key is
already present, otherwise append the pair. -/
def dinsert (m : List (String × α)) (k : String) (v : α) :
    List (String × α) :=
  if (m.lookup k).isSome then
    m.map (fun p => if p.1 = k then (k, v) else p)
  else m ++ [(k, v)]

/-- `STATIC_TYPO_CORRECTIONS` from `src/sheets_updater.py`, in source
order. -/
def STATIC_TYPO_CORRECTIONS : List (String × String) :=
  [("SEDİMENTASYON", "Sedimantasyon"),
   ("Sedimentasyon", "Sedimantasyon"),
   ("SEDIMENTASYON", "Sedimantasyon"),
   ("HGB", "Hemoglobin"),
   ("Hgb", "Hemoglobin"),
   ("CRP", "C-reaktif Protein"),
   ("Crp (Turbidimetrik)", "C-reaktif Protein"),
   ("CRP Türbidimetrik", "C-reaktif Protein"),
   ("Crp (Türbidimetrik)", "C-reaktif Protein")]

/-- `COMMON_ABBREVIATIONS` from `_auto_detect_synonyms`, in source
order. -/
def COMMON_ABBREVIATIONS : List (String × String) :=
  [("HGB", "Hemoglobin"), ("Hgb", "Hemoglobin"),
   ("PLT", "Trombosit"), ("WBC", "Lökosit"), ("RBC", "Eritrosit"),
   ("HCT", "Hematokrit"), ("Hct", "Hematokrit"),
   ("MCV", "MCV"), ("MCH", "MCH"), ("MCHC", "MCHC"),
   ("NEU#", "Nötrofil#"), ("NEU%", "Nötrofil%"),
   ("LYM#", "Lenfosit#"), ("LYM%", "Lenfosit%"),
   ("MON#", "Monosit#"), ("MON%", "Monosit%"),
   ("EOS#", "Eozinofil#"), ("EOS%", "Eozinofil%"),
   ("BASO#", "Bazofil#"), ("BASO%", "Bazofil%"),
   ("ALT", "Alanin aminotransferaz"), ("AST", "Aspartat transaminaz"),
   ("GGT", "GGT - Gamma glutamil transferaz"), ("ALP", "Alkalen Fosfataz"),
   ("BUN", "Kan Üre Azotu"), ("CRP", "C-reaktif Protein"),
   ("TSH", "TSH"), ("LDH", "LDH - Laktik Dehidrogenaz")]

/-- Python `str.endswith(suffix)`, computed on character lists so that
it reduces definitionally. -/
def strEndsWith (s suffix : String) : Bool :=
  List.isSuffixOf suffix.toList s.toList

/-- Python `str.lower()` restricted to ASCII letters, computed on
character lists so that it reduces definitionally. -/
def strToLower (s : String) : String :=
  String.mk (s.toList.map Char.toLower)

/-- Python `str.isupper()` restricted to ASCII letters: at least one
letter, and every letter uppercase. -/
def pyIsUpper (s : String) : Bool :=
  s.toList.any (fun c => c.isAlpha) &&
    s.toList.all (fun c => !c.isAlpha || c.isUpper)

/-- Rule 1 of `_auto_detect_synonyms`: a name without a `#` or `%`
suffix merges into its `#`-suffixed sibling when both are present. -/
def autoRule1 (names : List String) (m0 : List (String × String)) :
    List (String × String) :=
  names.foldl (fun m metric =>
    if !(strEndsWith metric "#") && !(strEndsWith metric "%") then
      let hv := metric ++ "#"
      if names.contains hv then dinsert m metric hv else m
    else m) m0

/-- Rule 2 of `_auto_detect_synonyms`: fixed abbreviation table, applied
when both the short and the long form are present. -/
def autoRule2 (names : List String) (m0 : List (String × String)) :
    List (String × String) :=
  COMMON_ABBREVIATIONS.foldl (fun m p =>
    if names.contains p.1 && names.contains p.2 then dinsert m p.1 p.2
    else m) m0

/-- Rule 3 of `_auto_detect_synonyms`: case-insensitive duplicates, the
all-uppercase form merging into the mixed-case form. -/
def autoRule3 (names : List String) (m0 : List (String × String)) :
    List (String × String) :=
  (names.foldl
    (fun (acc : List (String × String) × List (String × String)) metric =>
      let seen := acc.2
      let lower := strToLower metric
      match seen.lookup lower with
      | some existing =>
        if pyIsUpper metric && !(pyIsUpper existing) then
          (dinsert acc.1 metric existing, seen)
        else if !(pyIsUpper metric) && pyIsUpper existing then
          (dinsert acc.1 existing metric, seen)
        else (acc.1, seen)
      | Option.none => (acc.1, seen ++ [(lower, metric)])) (m0, [])).1

/-- `_auto_detect_synonyms(metric_names)`: the three structural rules in
source order, accumulating into one map. -/
def auto_detect_synonyms (names : List String) : List (String × String) :=
  autoRule3 names (autoRule2 names (autoRule1 names []))

/-- `get_static_synonym_map(metric_names)`: static corrections for names
actually present. -/
def get_static_synonym_map (names : List String) : List (String × String) :=
  STATIC_TYPO_CORRECTIONS.foldl (fun m p =>
    if names.contains p.1 then dinsert m p.1 p.2 else m) []

/-- `identify_synonyms(metric_names)`: merge the auto-detected and
static maps, static entries winning on key collision
(`{**auto_map, **static_map}`). -/
def identify_synonyms (names : List String) : List (String × String) :=
  if names = [] then []
  else
    (get_static_synonym_map names).foldl (fun m p => dinsert m p.1 p.2)
      (auto_detect_synonyms names)

/-- A raw reference-sheet cell as `_validate_synonym_mappings` sees it:
empty (falsy, parses to Python `None`), a string `float()` accepts
(parsing to that number), or a string `float()` raises on. -/
inductive Cell where
  | empty
  | numStr (q : ℚ)
  | badStr
deriving DecidableEq, Repr

/-- Parse one cell: `float(cell) if cell else None`, with `Option.none`
(outer) marking a raised `ValueError`. -/
def parseCell : Cell → Option (Option ℚ)
  | Cell.empty => some Option.none
  | Cell.numStr q => some (some q)
  | Cell.badStr => Option.none

/-- `parse_range` from `_validate_synonym_mappings`: parse both cells,
`Option.none` when either raises. -/
def parse_range (c : Cell × Cell) : Option (Option ℚ × Option ℚ) :=
  match parseCell c.1, parseCell c.2 with
  | some l, some h => some (l, h)
  | _, _ => Option.none

/-- Append an original name to its unified-name group, creating the
group on first sight (Python dict-of-lists accumulation). -/
def addToGroup (gs : List (String × List String)) (uni orig : String) :
    List (String × List String) :=
  if (gs.lookup uni).isSome then
    gs.map (fun p => if p.1 = uni then (p.1, p.2 ++ [orig]) else p)
  else gs ++ [(uni, [orig])]

/-- Group a synonym map by unified (target) name, in insertion order. -/
def groupByUnified (m : List (String × String)) :
    List (String × List String) :=
  m.foldl (fun gs p => addToGroup gs p.2 p.1) []

/-- Python `max` over a non-empty list (0 on empty, never reached). -/
def listMax : List ℚ → ℚ
  | [] => 0
  | h :: t => t.foldl max h

/-- Python `min` over a non-empty list (0 on empty, never reached). -/
def listMin : List ℚ → ℚ
  | [] => 0
  | h :: t => t.foldl min h

/-- `n.rstrip('#%')`: drop every trailing `#` or `%` character. -/
def rstripHashPercent (s : String) : String :=
  String.mk ((s.toList.reverse.dropWhile
    (fun c => c == '#' || c == '%')).reverse)

/-- The upper-bound ratio comparison of `_validate_synonym_mappings`'
rule 2: with more than one parsed upper bound it computes
`max_high / min_high` guarded only by `max_high > 0`, so a zero
`min_high` under a positive `max_high` raises `ZeroDivisionError`
(modelled as `Except.error ()`); the `> 2.0` comparison itself only
logs and never blocks the merge. -/
def rule2Check (high_values : List ℚ) : Except Unit Unit :=
  if high_values.length > 1 then
    let max_high := listMax high_values
    let min_high := listMin high_values
    if max_high > 0 then
      if min_high = 0 then Except.error ()
      else Except.ok ()
    else Except.ok ()
  else Except.ok ()

/-- Rule 2 of `_validate_synonym_mappings` for one group: collect the
group's reference ranges, parse them, and run the upper-bound ratio
comparison when more than one range parsed. -/
def rule2ForGroup (ref_ranges : List (String × (Cell × Cell)))
    (originals : List String) : Except Unit Unit :=
  let ranges_in_group := originals.filterMap
    (fun n => (ref_ranges.lookup n).map (fun r => (n, r)))
  if ranges_in_group.length > 1 then
    let parsed := ranges_in_group.filterMap
      (fun p => (parse_range p.2).map (fun r => (p.1, r)))
    if parsed.length > 1 then
      rule2Check (parsed.filterMap (fun p => p.2.2))
    else Except.ok ()
  else Except.ok ()

/-- The body of `_validate_synonym_mappings`' per-group loop.  Rule 1
skips a group mixing `#`- and `%`-suffixed originals.  Rule 2 may raise
(see `rule2Check`).  Rule 3 skips a group whose originals share one base
name and mix a bare name with both `#` and `%` variants.  Groups passing
all checks are added to the validated map. -/
def checkGroup (ref_ranges : List (String × (Cell × Cell)))
    (validated : List (String × String)) (g : String × List String) :
    Except Unit (List (String × String)) :=
  let unified := g.1
  let originals := g.2
  let has_hash := originals.any (fun n => strEndsWith n "#")
  let has_percent := originals.any (fun n => strEndsWith n "%")
  if has_hash && has_percent then Except.ok validated
  else
    match rule2ForGroup ref_ranges originals with
    | Except.error e => Except.error e
    | Except.ok _ =>
      let base_names := originals.map rstripHashPercent
      let has_no_suffix := originals.any
        (fun n => !(strEndsWith n "#") && !(strEndsWith n "%"))
      if base_names.dedup.length == 1 && originals.length > 1
          && has_no_suffix && has_hash && has_percent then
        Except.ok validated
      else
        Except.ok (validated ++ originals.map (fun o => (o, unified)))

/-- `_validate_synonym_mappings(synonym_map)` with the reference-range
lookup (a Sheets read in the source) passed in as data.  Returns
`Except.error ()` when the source would raise `ZeroDivisionError`. -/
def validateSynonymMappings (ref_ranges : List (String × (Cell × Cell)))
    (synonym_map : List (String × String)) :
    Except Unit (List (String × String)) :=
  if synonym_map = [] then Except.ok []
  else (groupByUnified synonym_map).foldlM (checkGroup ref_ranges) []

/-- The Normalizer's mapping pipeline: `identify_synonyms` followed by
`_validate_synonym_mappings`. -/
def normalizePipeline (ref_ranges : List (String × (Cell × Cell)))
    (names : List String) : Except Unit (List (String × String)) :=
  validateSynonymMappings ref_ranges (identify_synonyms names)

/-- Helper: with a non-empty filtered history and non-zero median, the
validator accepts exactly when the percentage deviation from the median
is at most the threshold. -/
theorem valid_iff_deviation_le (name : String) (v maxDev : ℚ)
    (hist : List (Option ℚ)) (hne : filterNone hist ≠ [])
    (hmed : median (filterNone hist) ≠ 0) :
    (validate_metric_value name (some (PVal.num v)) hist maxDev).valid = true ↔
      |v - median (filterNone hist)| / |median (filterNone hist)| * 100 ≤ maxDev := by
  simp only [validate_metric_value]
  rw [if_neg hne, if_neg hmed]
  by_cases h : |v - median (filterNone hist)| / |median (filterNone hist)| * 100 > maxDev
  · rw [if_pos h]
    simp [not_le.mpr h]
  · rw [if_neg h]
    simp [not_lt.mp h]

/-- C1: for every metric name, numeric value and history whose non-null
entries are non-empty with median ≠ 0, `validate_metric_value` returns
`valid = true` iff `abs(value - median) / abs(median) * 100` is at most
`max_deviation_pct` (500 by default), the median being the statistical
median of the non-null history entries. -/
theorem c1_validate_metric_value_iff (name : String) (v maxDev : ℚ)
    (hist : List (Option ℚ)) (hne : filterNone hist ≠ [])
    (hmed : median (filterNone hist) ≠ 0) :
    (validate_metric_value name (some (PVal.num v)) hist maxDev).valid = true ↔
      |v - median (filterNone hist)| / |median (filterNone hist)| * 100 ≤ maxDev :=
  valid_iff_deviation_le name v maxDev hist hne hmed

/-- Witness for C1 at value 3, history [1], threshold 500. -/
theorem c1_witness :
    (validate_metric_value "Hb" (some (PVal.num 3)) [some 1] 500).valid = true ↔
      |(3 : ℚ) - median (filterNone [some 1])| /
        |median (filterNone [some 1])| * 100 ≤ 500 :=
  c1_validate_metric_value_iff "Hb" 3 500 [some 1] (by decide) (by decide)

/-- C2: for non-null numeric references with nonzero existing value, the
reconciler classifies by `diff_pct = abs(new - existing) / abs(existing)
* 100` into exactly three bands: at most 15 percent accepts silently;
between 15 and 50 percent accepts with a warning naming both values and
the percentage; above 50 percent rejects with a warning naming both
values, the percentage and the 50 percent threshold. -/
theorem c2_reference_change_bands (t : String) (e n : ℚ) (he : e ≠ 0) :
    (|n - e| / |e| * 100 ≤ 15 →
      validate_reference_change (some (PVal.num e)) (some (PVal.num n)) t =
        ⟨true, Option.none⟩) ∧
    (15 < |n - e| / |e| * 100 → |n - e| / |e| * 100 ≤ 50 →
      validate_reference_change (some (PVal.num e)) (some (PVal.num n)) t =
        ⟨true, some (RWarning.changed t e n (|n - e| / |e| * 100))⟩) ∧
    (50 < |n - e| / |e| * 100 →
      validate_reference_change (some (PVal.num e)) (some (PVal.num n)) t =
        ⟨false, some (RWarning.rejected t e n (|n - e| / |e| * 100) 50)⟩) := by
  simp only [validate_reference_change]
  rw [if_neg he]
  refine ⟨fun h1 => ?_, fun h1 h2 => ?_, fun h1 => ?_⟩
  · rw [if_pos h1]
  · rw [if_neg (not_le.mpr h1), if_pos h2]
  · rw [if_neg (not_le.mpr (lt_trans (by norm_num) h1)),
      if_neg (not_le.mpr h1)]

/-- Witness for C2 at existing 12, new 15 (25 percent difference). -/
theorem c2_witness :
    ((|(15 : ℚ) - 12| / |(12 : ℚ)| * 100 ≤ 15 →
      validate_reference_change (some (PVal.num 12)) (some (PVal.num 15))
        "ref_low" = ⟨true, Option.none⟩) ∧
    (15 < |(15 : ℚ) - 12| / |(12 : ℚ)| * 100 →
        |(15 : ℚ) - 12| / |(12 : ℚ)| * 100 ≤ 50 →
      validate_reference_change (some (PVal.num 12)) (some (PVal.num 15))
        "ref_low" =
        ⟨true, some (RWarning.changed "ref_low" 12 15
          (|(15 : ℚ) - 12| / |(12 : ℚ)| * 100))⟩) ∧
    (50 < |(15 : ℚ) - 12| / |(12 : ℚ)| * 100 →
      validate_reference_change (some (PVal.num 12)) (some (PVal.num 15))
        "ref_low" =
        ⟨false, some (RWarning.rejected "ref_low" 12 15
          (|(15 : ℚ) - 12| / |(12 : ℚ)| * 100) 50)⟩)) :=
  c2_reference_change_bands "ref_low" 12 15 (by norm_num)

/-- Counterexample to C3 as stated: history [1] has positive median 1,
the value -5 lies strictly below it, yet the deviation is 600 percent
and the validator rejects under the default threshold 500. -/
theorem c3_counterexample :
    0 < median (filterNone [some 1]) ∧
    (-5 : ℚ) < median (filterNone [some 1]) ∧
    (validate_metric_value "X" (some (PVal.num (-5))) [some 1] 500).valid =
      false := by
  have hm : median [1] = 1 := by decide
  refine ⟨by decide, by decide, ?_⟩
  simp only [validate_metric_value, filterNone, List.filterMap, id, hm]
  norm_num

/-- C3 (amended): for a history of non-null values with positive median,
every NONNEGATIVE value strictly below the median is accepted under the
default threshold 500 — the deviation of such a value is at most 100
percent. -/
theorem c3_below_median_valid (name : String) (v : ℚ)
    (hist : List (Option ℚ)) (hne : filterNone hist ≠ [])
    (hpos : 0 < median (filterNone hist)) (hv0 : 0 ≤ v)
    (hlt : v < median (filterNone hist)) :
    (validate_metric_value name (some (PVal.num v)) hist 500).valid = true := by
  set med := median (filterNone hist) with hm
  have hdev : |v - med| / |med| * 100 ≤ 500 := by
    rw [abs_of_neg (sub_neg.mpr hlt), abs_of_pos hpos]
    have h1 : (-(v - med)) / med ≤ 1 := by
      rw [div_le_one hpos]
      linarith
    calc -(v - med) / med * 100 ≤ 1 * 100 := by
          exact mul_le_mul_of_nonneg_right h1 (by norm_num)
      _ ≤ 500 := by norm_num
  exact (valid_iff_deviation_le name v 500 hist hne hpos.ne').mpr hdev

/-- Witness for the amended C3 at value 1, history [2]. -/
theorem c3_witness :
    (validate_metric_value "Hb" (some (PVal.num 1)) [some 2] 500).valid =
      true :=
  c3_below_median_valid "Hb" 1 [some 2] (by decide) (by decide) (by decide)
    (by decide)

/-- C6: a missing existing reference always accepts (for any new value,
including None), and a missing new reference with a non-null existing
one always yields `should_update = false` — in both cases with no
warning. -/
theorem c6_none_reference_handling (x : Option PVal) (y : PVal)
    (t : String) :
    validate_reference_change Option.none x t = ⟨true, Option.none⟩ ∧
    validate_reference_change (some y) Option.none t =
      ⟨false, Option.none⟩ :=
  ⟨rfl, rfl⟩

/-- C7: for non-null numeric references with nonzero existing value, the
outcome class (silent accept / accept-with-warning / reject) of
`validate_reference_change` is invariant under negating both inputs. -/
theorem c7_sign_symmetry (a b : ℚ) (t : String) (ha : a ≠ 0) :
    outcomeClass (validate_reference_change (some (PVal.num (-a)))
        (some (PVal.num (-b))) t) =
      outcomeClass (validate_reference_change (some (PVal.num a))
        (some (PVal.num b)) t) := by
  have hna : (-a) ≠ 0 := neg_ne_zero.mpr ha
  have hdiff : |(-b) - (-a)| / |(-a)| * 100 = |b - a| / |a| * 100 := by
    rw [abs_neg, show (-b) - (-a) = -(b - a) by ring, abs_neg]
  simp only [validate_reference_change]
  rw [if_neg hna, if_neg ha, hdiff]
  by_cases h1 : |b - a| / |a| * 100 ≤ 15
  · rw [if_pos h1, if_pos h1]
  · rw [if_neg h1, if_neg h1]
    by_cases h2 : |b - a| / |a| * 100 ≤ 50
    · rw [if_pos h2, if_pos h2]
      rfl
    · rw [if_neg h2, if_neg h2]
      rfl

/-- Witness for C7 at existing 12, new 15. -/
theorem c7_witness :
    outcomeClass (validate_reference_change (some (PVal.num (-12)))
        (some (PVal.num (-15))) "ref_low") =
      outcomeClass (validate_reference_change (some (PVal.num 12))
        (some (PVal.num 15)) "ref_low") :=
  c7_sign_symmetry 12 15 "ref_low" (by norm_num)

/-- Counterexample to C4 as stated: a report whose only metric has a
None value leaves `skipped` at 0 and `warnings` empty — the metric is
dropped by a bare `continue`, not counted and not warned about. -/
theorem c4_counterexample :
    (save_report "p" "r" (fun _ => []) (fun _ => (Option.none, Option.none))
      true [("X", ⟨Option.none, some "u", Option.none, Option.none,
        Option.none⟩)]).skipped = 0 ∧
    (save_report "p" "r" (fun _ => []) (fun _ => (Option.none, Option.none))
      true [("X", ⟨Option.none, some "u", Option.none, Option.none,
        Option.none⟩)]).warnings = [] :=
  ⟨rfl, rfl⟩

/-- C4 (amended): in `save_report`'s metric loop, a metric whose value
is None is skipped silently — the state is unchanged, with no `skipped`
increment and no warning — while a metric whose value is non-numeric is
skipped with `skipped` incremented and a warning appended; neither
aborts the batch (the loop step is total). -/
theorem c4_skip_behavior (p r : String) (gv : String → List (Option ℚ))
    (gr : String → Option PVal × Option PVal) (validate : Bool)
    (st : SaveState) (n : String) (d : TestData) :
    (d.value = Option.none →
      processMetric p r gv gr validate st (n, d) = st) ∧
    (d.value = some PVal.nonNum →
      processMetric p r gv gr validate st (n, d) =
        { st with
            skipped := st.skipped + 1,
            warnings := st.warnings ++ [SaveWarning.nonNumericValue n] }) := by
  constructor <;> intro h <;> simp [processMetric, h]

/-- Witness for the amended C4: a None value leaves the state unchanged
and a non-numeric value increments `skipped` and appends a warning. -/
theorem c4_witness :
    processMetric "p" "r" (fun _ => []) (fun _ => (Option.none, Option.none))
      true ⟨[], [], 0, []⟩ ("X", ⟨Option.none, Option.none, Option.none,
        Option.none, Option.none⟩) = ⟨[], [], 0, []⟩ ∧
    processMetric "p" "r" (fun _ => []) (fun _ => (Option.none, Option.none))
      true ⟨[], [], 0, []⟩ ("X", ⟨some PVal.nonNum, Option.none, Option.none,
        Option.none, Option.none⟩) =
      ⟨[], [], 1, [SaveWarning.nonNumericValue "X"]⟩ :=
  ⟨(c4_skip_behavior "p" "r" (fun _ => []) (fun _ => (Option.none, Option.none))
      true ⟨[], [], 0, []⟩ "X" ⟨Option.none, Option.none, Option.none,
        Option.none, Option.none⟩).1 rfl,
   (c4_skip_behavior "p" "r" (fun _ => []) (fun _ => (Option.none, Option.none))
      true ⟨[], [], 0, []⟩ "X" ⟨some PVal.nonNum, Option.none, Option.none,
        Option.none, Option.none⟩).2 rfl⟩

/-- C8: in `save_report`'s metric loop, the queued metric-definition
update for an accepted metric always carries the extraction's unit
field — even when it is None — while `ref_low` and `ref_high` are each
included only when the reconciler says `should_update` and the new
value is non-null. -/
theorem c8_definition_unit_unconditional (p r : String)
    (gv : String → List (Option ℚ))
    (gr : String → Option PVal × Option PVal) (st : SaveState)
    (n : String) (d : TestData) (v : ℚ)
    (hval : d.value = some (PVal.num v))
    (hacc : (validate_metric_value n (some (PVal.num v)) (gv n) 500).valid
      = true) :
    (processMetric p r gv gr true st (n, d)).definitions =
      st.definitions ++
        [⟨p, n, d.unit,
          (if (validate_reference_change (gr n).1 d.ref_low
                "ref_low").should_update && d.ref_low.isSome
           then d.ref_low else Option.none),
          (if (validate_reference_change (gr n).2 d.ref_high
                "ref_high").should_update && d.ref_high.isSome
           then d.ref_high else Option.none)⟩] := by
  simp [processMetric, hval, hacc]

/-- Witness for C8: an accepted first value with a None unit queues a
definition whose unit field is None and whose reference keys are
absent. -/
theorem c8_witness :
    (processMetric "p" "r" (fun _ => [])
      (fun _ => (Option.none, Option.none)) true ⟨[], [], 0, []⟩
      ("X", ⟨some (PVal.num 5), Option.none, Option.none, Option.none,
        Option.none⟩)).definitions =
      [⟨"p", "X", Option.none, Option.none, Option.none⟩] :=
  c8_definition_unit_unconditional "p" "r" (fun _ => [])
    (fun _ => (Option.none, Option.none)) ⟨[], [], 0, []⟩ "X"
    ⟨some (PVal.num 5), Option.none, Option.none, Option.none, Option.none⟩
    5 rfl (by decide)

/-- C9: in `save_report`'s metric loop, the observation row queued for
an accepted metric carries the extraction's value, unit, flag, ref_low
and ref_high verbatim, and the queued metrics are unchanged under any
replacement of the reference-lookup collaborator — the reconciler's
decisions never touch the observation row. -/
theorem c9_observation_row_verbatim (p r : String)
    (gv : String → List (Option ℚ))
    (gr gr2 : String → Option PVal × Option PVal) (st : SaveState)
    (n : String) (d : TestData) (v : ℚ)
    (hval : d.value = some (PVal.num v))
    (hacc : (validate_metric_value n (some (PVal.num v)) (gv n) 500).valid
      = true) :
    (processMetric p r gv gr true st (n, d)).metrics =
      st.metrics ++ [⟨r, n, v, d.unit, d.ref_low, d.ref_high, d.flag⟩] ∧
    (processMetric p r gv gr true st (n, d)).metrics =
      (processMetric p r gv gr2 true st (n, d)).metrics := by
  constructor <;> simp [processMetric, hval, hacc]

/-- Witness for C9 at a concrete accepted metric and two different
reference lookups. -/
theorem c9_witness :
    (processMetric "p" "r" (fun _ => [])
      (fun _ => (Option.none, Option.none)) true ⟨[], [], 0, []⟩
      ("X", ⟨some (PVal.num 5), some "u", some (PVal.num 1),
        some (PVal.num 2), some "H"⟩)).metrics =
      [⟨"r", "X", 5, some "u", some (PVal.num 1), some (PVal.num 2),
        some "H"⟩] ∧
    (processMetric "p" "r" (fun _ => [])
      (fun _ => (Option.none, Option.none)) true ⟨[], [], 0, []⟩
      ("X", ⟨some (PVal.num 5), some "u", some (PVal.num 1),
        some (PVal.num 2), some "H"⟩)).metrics =
      (processMetric "p" "r" (fun _ => [])
        (fun _ => (some (PVal.num 100), some (PVal.num 200))) true
        ⟨[], [], 0, []⟩
        ("X", ⟨some (PVal.num 5), some "u", some (PVal.num 1),
          some (PVal.num 2), some "H"⟩)).metrics :=
  c9_observation_row_verbatim "p" "r" (fun _ => [])
    (fun _ => (Option.none, Option.none))
    (fun _ => (some (PVal.num 100), some (PVal.num 200))) ⟨[], [], 0, []⟩
    "X" ⟨some (PVal.num 5), some "u", some (PVal.num 1), some (PVal.num 2),
      some "H"⟩ 5 rfl (by decide)

/-- Helper: folding `min` over positives from a positive accumulator
stays positive. -/
theorem foldl_min_pos (t : List ℚ) : ∀ acc : ℚ, 0 < acc →
    (∀ x ∈ t, 0 < x) → 0 < t.foldl min acc := by
  induction t with
  | nil => intro acc h _; exact h
  | cons a t ih =>
    intro acc hacc hall
    simp only [List.foldl_cons]
    refine ih (min acc a) (lt_min hacc (hall a (by simp))) ?_
    intro x hx
    exact hall x (by simp [hx])

/-- Helper: the ratio check never raises when every upper bound is
positive. -/
theorem rule2Check_ok (hv : List ℚ) (hpos : ∀ x ∈ hv, 0 < x) :
    rule2Check hv = Except.ok () := by
  match hv with
  | [] => rfl
  | h :: t =>
    have hmin : 0 < listMin (h :: t) := by
      refine foldl_min_pos t h (hpos h (by simp)) ?_
      intro x hx
      exact hpos x (by simp [hx])
    simp only [rule2Check]
    split
    · split
      · rw [if_neg hmin.ne']
      · rfl
    · rfl

/-- Helper: a successful `parse_range` returns exactly the parse of the
high cell in its second component. -/
theorem parse_range_high (c : Cell × Cell) (r : Option ℚ × Option ℚ)
    (h : parse_range c = some r) : parseCell c.2 = some r.2 := by
  unfold parse_range at h
  rcases h1 : parseCell c.1 with _ | l <;>
    rcases h2 : parseCell c.2 with _ | hq <;>
      rw [h1, h2] at h <;> simp at h
  subst h
  simp [h2]

/-- Helper: every parsed upper bound of a group is positive when the
reference table only carries positive upper bounds. -/
theorem group_highs_pos (rr : List (String × (Cell × Cell)))
    (hpos : ∀ n c, rr.lookup n = some c →
      ∀ q, parseCell c.2 = some (some q) → 0 < q)
    (originals : List String) :
    ∀ x ∈ (((originals.filterMap
        (fun n => (rr.lookup n).map (fun r => (n, r)))).filterMap
        (fun p => (parse_range p.2).map (fun r => (p.1, r)))).filterMap
        (fun p => p.2.2)), 0 < x := by
  intro x hx
  simp only [List.mem_filterMap, Option.map_eq_some'] at hx
  obtain ⟨p, ⟨pr, ⟨n, hn, c, hc, hpr⟩, r, hrr, hp⟩, hhigh⟩ := hx
  have h2 : parseCell pr.2.2 = some r.2 := parse_range_high pr.2 r hrr
  have hx2 : r.2 = some x := by
    rw [← hp] at hhigh
    exact hhigh
  rw [hx2] at h2
  refine hpos n c hc x ?_
  rw [← hpr] at h2
  exact h2

/-- Helper: rule 2 of the group check never raises when the reference
table only carries positive upper bounds. -/
theorem rule2ForGroup_ok (rr : List (String × (Cell × Cell)))
    (hpos : ∀ n c, rr.lookup n = some c →
      ∀ q, parseCell c.2 = some (some q) → 0 < q)
    (originals : List String) :
    rule2ForGroup rr originals = Except.ok () := by
  simp only [rule2ForGroup]
  split
  · split
    · exact rule2Check_ok _ (group_highs_pos rr hpos originals)
    · rfl
  · rfl

/-- Helper: the per-group check always returns when the reference table
only carries positive upper bounds. -/
theorem checkGroup_ok (rr : List (String × (Cell × Cell)))
    (hpos : ∀ n c, rr.lookup n = some c →
      ∀ q, parseCell c.2 = some (some q) → 0 < q)
    (acc : List (String × String)) (g : String × List String) :
    ∃ out, checkGroup rr acc g = Except.ok out := by
  simp only [checkGroup]
  split
  · exact ⟨acc, rfl⟩
  · rw [rule2ForGroup_ok rr hpos g.2]
    dsimp only
    split
    · exact ⟨acc, rfl⟩
    · exact ⟨_, rfl⟩

/-- Helper: the whole group fold returns when every group check
does. -/
theorem foldlM_checkGroup_ok (rr : List (String × (Cell × Cell)))
    (hpos : ∀ n c, rr.lookup n = some c →
      ∀ q, parseCell c.2 = some (some q) → 0 < q) :
    ∀ (l : List (String × List String)) (acc : List (String × String)),
      ∃ out, l.foldlM (checkGroup rr) acc = Except.ok out := by
  intro l
  induction l with
  | nil => intro acc; exact ⟨acc, rfl⟩
  | cons g t ih =>
    intro acc
    obtain ⟨o, ho⟩ := checkGroup_ok rr hpos acc g
    obtain ⟨o2, ho2⟩ := ih o
    refine ⟨o2, ?_⟩
    rw [List.foldlM_cons, ho]
    simpa using ho2

/-- C10: when every parsed reference upper bound in the table is
positive, `_validate_synonym_mappings` is well-defined and returns a
filtered map; but on a synonym group whose parsed upper bounds are 0 and
10, the `max_high / min_high` ratio check — guarded only by
`max_high > 0` — raises `ZeroDivisionError` instead of returning. -/
theorem c10_ratio_check_division (rr : List (String × (Cell × Cell)))
    (m : List (String × String))
    (hpos : ∀ n c, rr.lookup n = some c →
      ∀ q, parseCell c.2 = some (some q) → 0 < q) :
    (∃ out, validateSynonymMappings rr m = Except.ok out) ∧
    validateSynonymMappings
      [("A", (Cell.empty, Cell.numStr 0)),
       ("B", (Cell.empty, Cell.numStr 10))]
      [("A", "C"), ("B", "C")] = Except.error () := by
  constructor
  · unfold validateSynonymMappings
    split
    · exact ⟨[], rfl⟩
    · exact foldlM_checkGroup_ok rr hpos _ []
  · rfl

/-- Witness for C10 with an empty reference table and a one-entry
map. -/
theorem c10_witness :
    (∃ out, validateSynonymMappings [] [("A", "C")] = Except.ok out) ∧
    validateSynonymMappings
      [("A", (Cell.empty, Cell.numStr 0)),
       ("B", (Cell.empty, Cell.numStr 10))]
      [("A", "C"), ("B", "C")] = Except.error () :=
  c10_ratio_check_division [] [("A", "C")]
    (by intro n c h q hq; simp [List.lookup] at h)

/-- C5 evaluated on the code: given exactly the raw names Lenfosit and
Lenfosit# the pipeline produces the validated mapping
Lenfosit → Lenfosit#; but given Nötrofil, Nötrofil# and Nötrofil%
together, the pipeline still produces the validated mapping
Nötrofil → Nötrofil# — the merge the spec says must be rejected is
accepted, because the validation pass groups only the map's keys and
never sees the `%` sibling. -/
theorem c5_pipeline_eval :
    normalizePipeline [] ["Lenfosit", "Lenfosit#"] =
      Except.ok [("Lenfosit", "Lenfosit#")] ∧
    normalizePipeline [] ["Nötrofil", "Nötrofil#", "Nötrofil%"] =
      Except.ok [("Nötrofil", "Nötrofil#")] :=
  ⟨rfl, rfl⟩

end PadreValues
